import Mathlib

/-!
Shallow embedding of the checkpointed polling connectors of
HarfangLab/sekoia-io-automation-library.

Sources embedded here:
  * src/Duo/duo/iterators.py   (DuoV1LogsIterator, DuoV2LogsIterator)
  * src/Duo/duo/consumer.py    (DuoLogsConsumer: load_checkpoint,
    save_checkpoint, fetch_batches pacing, run)
  * src/Azure/tests/connector/test_azure_blob.py — the Azure blob connector
    itself (connectors/azure_blob.py) is not part of the analyzed sources,
    so its operations are modelled from the spec, with the repository's
    tests pinning concrete behavior where they speak.

Conventions of the embedding:
  * Machine integers are Nat/Int; timestamps are epoch Nat.
  * A Python dict used as a checkpoint record is an association list
    `Kwargs := List (String × Nat)`; absent keys read as `none`.
  * The iterator classes' mutable state is an explicit state record, and
    `__next__` is a step function returning `Option page × state`:
    `none` in the first component models `raise StopIteration`.  The state
    returned is the post-mutation state (in DuoV2LogsIterator the callback
    fires before StopIteration is raised; the embedding preserves that).
  * Invoking the checkpoint-save callback is modelled by appending the
    keyword arguments of the call to a `saved` log inside the state; this
    append happens in the same step that computes the page, mirroring that
    the callback runs before the page is returned.
-/

/-- Keyword arguments of one checkpoint-save callback invocation, and also
the per-key checkpoint record stored in the cache: a Python dict with
Nat-valued fields, as an association list. -/
abbrev Kwargs : Type := List (String × Nat)

/-- Reading a field of a checkpoint dict: Python `d.get(field)`. -/
def getField (d : Kwargs) (field : String) : Option Nat :=
  (List.find? (fun kv => kv.1 = field) d).map (fun kv => kv.2)

/-- One Duo log record: the code reads only its "timestamp" field; the
payload stands for the rest of the record, so that records with equal
timestamps stay distinguishable. -/
structure DuoEvent where
  timestamp : Nat
  payload : String
deriving DecidableEq, Repr

/-- Python truthiness of an optional Nat-valued cursor:
`None`, and the number 0, are falsy. -/
def truthy : Option Nat → Bool
  | none => false
  | some n => n != 0

/-! ## DuoV1LogsIterator (src/Duo/duo/iterators.py, lines 6-30) -/

namespace DuoV1LogsIterator

/-- Stable insertion of an event into a list already sorted ascending by
timestamp; an element is placed before the first strictly-later element,
after elements with an equal timestamp, matching the stability of Python's
`sorted(events, key=lambda e: e["timestamp"])`. -/
def insertByTimestamp (e : DuoEvent) : List DuoEvent → List DuoEvent
  | [] => [e]
  | x :: xs =>
    if x.timestamp < e.timestamp then x :: insertByTimestamp e xs
    else e :: x :: xs

/-- Stable sort ascending by the "timestamp" field:
`sorted(events, key=lambda e: e["timestamp"])` (iterators.py line 18). -/
def sortByTimestamp : List DuoEvent → List DuoEvent
  | [] => []
  | x :: xs => insertByTimestamp x (sortByTimestamp xs)

/-- Mutable state of a DuoV1LogsIterator: cursor `min_time`, the configured
`limit`, and the log of checkpoint-save callback invocations. -/
structure State where
  min_time : Nat
  limit : Nat
  saved : List Kwargs
deriving DecidableEq, Repr

/-- `__init__` line 8: `self.min_time = min_time if min_time else 0` —
a falsy argument (None, or 0) becomes 0. -/
def initMinTime : Option Nat → Nat
  | none => 0
  | some t => if t != 0 then t else 0

/-- One `__next__` call (iterators.py lines 16-30).  `func` is the source
call `self.func(mintime=...)`, keyed by the requested mintime.  Returns
`(some page, state')` for a normal step and `(none, state)` for
`raise StopIteration`. -/
def next (func : Nat → List DuoEvent) (s : State) : Option (List DuoEvent) × State :=
  let events := sortByTimestamp (func s.min_time)
  let events := events.take s.limit
  match events.getLast? with
  | some e =>
    let newMin := e.timestamp + 1
    (some events,
      { s with min_time := newMin, saved := s.saved ++ [[("min_time", newMin)]] })
  | none => (none, s)

/-- Driving the iterator for up to `n` steps, accumulating state; a
StopIteration step is final (the for-loop over the iterator ends). -/
def run (func : Nat → List DuoEvent) : Nat → State → State
  | 0, s => s
  | n + 1, s =>
    match next func s with
    | (some _, s') => run func n s'
    | (none, s') => s'

end DuoV1LogsIterator

/-! ## DuoV2LogsIterator (src/Duo/duo/iterators.py, lines 33-67) -/

namespace DuoV2LogsIterator

/-- The concrete source call made by one `__next__` step, with every
argument the code passes (iterators.py lines 48-52); `limit` is passed as
`str(self.limit)`. -/
inductive Request where
  | byOffset (next_offset : Nat) (api_version : Nat) (limit : String) (sort : String)
  | byMinTime (mintime : Option Nat) (api_version : Nat) (limit : String) (sort : String)
deriving DecidableEq, Repr

/-- A source response: the items page and the `metadata.next_offset`
field (absent metadata reads the same as metadata without the field). -/
structure Response where
  items : List DuoEvent
  next_offset : Option Nat
deriving DecidableEq, Repr

/-- Mutable state of a DuoV2LogsIterator. -/
structure State where
  min_time : Option Nat
  next_offset : Option Nat
  limit : Nat
  saved : List Kwargs
deriving DecidableEq, Repr

/-- The request a `__next__` step issues from state `s`: lines 48-52 —
with a truthy `next_offset` call by offset, otherwise by mintime. -/
def request (s : State) : Request :=
  if truthy s.next_offset then
    Request.byOffset (s.next_offset.getD 0) 2 (toString s.limit) "ts:asc"
  else
    Request.byMinTime s.min_time 2 (toString s.limit) "ts:asc"

/-- One `__next__` call (iterators.py lines 47-67).  A truthy
`metadata.next_offset` is stored as the new cursor and passed to the
callback; then, if the items page is empty, StopIteration is raised — the
cursor/callback mutation having already happened. -/
def next (func : Request → Response) (s : State) : Option (List DuoEvent) × State :=
  let response := func (request s)
  let s1 :=
    if truthy response.next_offset then
      { s with next_offset := response.next_offset,
               saved := s.saved ++ [[("next_offset", response.next_offset.getD 0)]] }
    else s
  if response.items.length = 0 then (none, s1) else (some response.items, s1)

/-- Driving the iterator for up to `n` steps; StopIteration is final. -/
def run (func : Request → Response) : Nat → State → State
  | 0, s => s
  | n + 1, s =>
    match next func s with
    | (some _, s') => run func n s'
    | (none, s') => s'

end DuoV2LogsIterator

/-! ## DuoLogsConsumer (src/Duo/duo/consumer.py) -/

namespace DuoLogsConsumer

/-- The shared checkpoint cache: a dict from the log-type key to that
key's checkpoint dict, as an association list. -/
abbrev Cache : Type := List (String × Kwargs)

/-- Dict lookup `cache.get(key)` on the outer cache. -/
def getKey (cache : Cache) (key : String) : Option Kwargs :=
  (List.find? (fun kv => kv.1 = key) cache).map (fun kv => kv.2)

/-- Dict assignment `cache[key] = v`: replace the binding in place, or
append a fresh one. -/
def setKey : Cache → String → Kwargs → Cache
  | [], key, v => [(key, v)]
  | (k, v') :: rest, key, v =>
    if k = key then (key, v) :: rest else (k, v') :: setKey rest key v

/-- `load_checkpoint` (consumer.py lines 54-62):
`cache.get(self._log_type.value, {"min_time": None, "next_offset": None})`.
The default dict carries only None-valued fields, which read back exactly
as the absent fields of the empty dict do, so the default is embedded as
the empty dict. -/
def load_checkpoint (cache : Cache) (key : String) : Kwargs :=
  (getKey cache key).getD []

/-- `save_checkpoint` (consumer.py lines 64-72): the whole checkpoint dict
stored under the log-type key is replaced by exactly the keyword
arguments of the call: `cache[key] = offset`. -/
def save_checkpoint (cache : Cache) (key : String) (offset : Kwargs) : Cache :=
  setKey cache key offset

/-- An observable action of the worker loop in `fetch_batches`
(consumer.py lines 117-168): forwarding a batch to the intakes, or a
`time.sleep` of a number of seconds. -/
inductive WorkerAction where
  | forward (count : Nat)
  | sleep (seconds : Int)
deriving DecidableEq, Repr

/-- The body of the for-loop of `fetch_batches` for one page, given the
measured `batch_duration = int(batch_end_time - batch_start_time)`:
push the batch when non-empty, then
`delta_sleep = self.frequency - batch_duration`; sleep it iff positive
(lines 134-135 and 156-163). -/
def pageActions (frequency : Int) (page : List DuoEvent) (batch_duration : Int) :
    List WorkerAction :=
  (if page.length > 0 then [WorkerAction.forward page.length] else []) ++
  (if frequency - batch_duration > 0 then [WorkerAction.sleep (frequency - batch_duration)]
   else [])

/-- The action trace of one `fetch_batches` call, given the pages the
events iterator yielded this pass, each with its measured duration: the
per-page actions in order, then the idle backoff sleep of the full
`frequency` iff the pass forwarded zero events in total (lines 165-168). -/
def fetch_batches (frequency : Int) (pages : List (List DuoEvent × Int)) :
    List WorkerAction :=
  (pages.map (fun p => pageActions frequency p.1 p.2)).flatten ++
  (if (pages.map (fun p => p.1.length)).sum = 0 then [WorkerAction.sleep frequency] else [])

/-- An observable action of `run` (consumer.py lines 170-177): one
completed `fetch_batches` pass, or the single `log_exception` call of the
except-branch. -/
inductive RunAction where
  | pass (actions : List WorkerAction)
  | logException (message : String)
deriving DecidableEq, Repr

/-- The action trace of `run` (consumer.py lines 170-177), mirroring
`try: while self.running: self.fetch_batches() except ...`.
`running k` is the value of the stop flag at the k-th top-of-loop check;
`cycle k` is the k-th `fetch_batches` call, either its action trace or the
error it raises.  `fuel` bounds the unrolling.  The stop flag is consulted
only at the top of the loop; an erroring pass yields exactly one
`log_exception` with the log-type label in the message, and the trace — the
thread — ends there. -/
def runTrace (label : String) (running : Nat → Bool)
    (cycle : Nat → Except String (List WorkerAction)) : Nat → Nat → List RunAction
  | 0, _ => []
  | fuel + 1, k =>
    if running k then
      match cycle k with
      | Except.ok actions => RunAction.pass actions :: runTrace label running cycle fuel (k + 1)
      | Except.error _ =>
        [RunAction.logException ("Failed to forward " ++ label ++ " events")]
    else []

end DuoLogsConsumer

/-! ## Azure blob connector, modelled from the spec

The Azure blob connector source (connectors/azure_blob.py) is not among
the analyzed sources; only its tests are
(src/Azure/tests/connector/test_azure_blob.py).  The definitions below are
modelled from the spec, and checked against the assertions of those tests
where the tests pin concrete behavior. -/

namespace AzureBlobConnector

/-- Modelled from the spec: the `last_event_date` property of
AzureBlobConnector is absent from the analyzed sources.  Spec section 4.4:
effective watermark = checkpoint value, default now − 1 hour when no
checkpoint exists.  The repository's own test
`test_azure_blob_connector_last_event_date`
(src/Azure/tests/connector/test_azure_blob.py lines 70-93) additionally
pins: a stored date equal to now reads back as now, and a stored date
older than one hour ago reads back as one hour ago — i.e. the stored value
is clamped from below at now − 1 hour.  Dates are epoch seconds. -/
def last_event_date (stored : Option Nat) (now : Nat) : Nat :=
  match stored with
  | none => now - 3600
  | some t => if t < now - 3600 then now - 3600 else t

/-- A blob listing entry: `{name, last_modified}` (spec section 3);
`last_modified` is epoch seconds. -/
structure BlobDescriptor where
  name : String
  last_modified : Nat
deriving DecidableEq, Repr

/-- Modelled from the spec: `get_most_recent_blobs` of AzureBlobConnector
is absent from the analyzed sources.  Spec section 4.4: enumerate all
blobs of the container, keeping those with `last_modified > lower_bound`,
in the source's enumeration order; the boundary is exclusive (section 8,
property 3).  The test `test_azure_blob_get_most_recent_blob` pins the
concrete three-blob scenario. -/
def get_most_recent_blobs (lower_bound : Nat) (blobs : List BlobDescriptor) :
    List BlobDescriptor :=
  blobs.filter (fun b => lower_bound < b.last_modified)

/-- The logical byte content of a downloaded blob after UTF-8 decoding,
as a list of characters, tagged by whether the blob was gzip-compressed.
Both download shapes (in-memory bytes, temp-file path) deliver the same
byte content, so the embedding keeps only that content. -/
inductive BlobContent where
  | plain (content : List Char)
  | gzipped (content : List Char)
deriving DecidableEq, Repr

/-- Modelled from the spec: gzip detection and transparent decompression
(spec section 4.4) recover the logical content of a gzipped blob; on a
plain blob the content is read as-is. -/
def readContent : BlobContent → List Char
  | BlobContent.plain content => content
  | BlobContent.gzipped content => content

/-- Splitting decoded text on line boundaries, Python
`content.split("\n")`: every newline character separates two (possibly
empty) lines. -/
def splitLines : List Char → List (List Char)
  | [] => [[]]
  | c :: rest =>
    if c = '\n' then [] :: splitLines rest
    else
      match splitLines rest with
      | [] => [[c]]
      | l :: ls => (c :: l) :: ls

/-- Modelled from the spec: the per-blob record extraction of
`get_azure_blob_data` is absent from the analyzed sources.  Spec section
4.4: decompress transparently, decode as UTF-8, split on line boundaries,
drop empty lines, emit each non-empty line as one record, in order,
without deduplication.  The tests `test_azure_blob_get_azure_blob_data_3`
and `_4` pin the gzip and repeated-record scenarios. -/
def blobRecords (blob : BlobContent) : List (List Char) :=
  (splitLines (readContent blob)).filter (fun l => l ≠ [])

/-- Joining lines with the newline separator: used to describe blob
contents built from given lines. -/
def joinLines : List (List Char) → List Char
  | [] => []
  | [l] => l
  | l :: ls => l ++ '\n' :: joinLines ls

end AzureBlobConnector

/-! ## Concrete instances used by the examples of the spec -/

/-- The three events of the spec's time-cursor example, timestamps
100, 101, 105. -/
def exampleEvents : List DuoEvent :=
  [⟨100, "a"⟩, ⟨101, "b"⟩, ⟨105, "c"⟩]

/-- A time-cursor source holding `exampleEvents`: `fetch(min_time)`
returns every record with timestamp ≥ min_time. -/
def exampleSource (t : Nat) : List DuoEvent :=
  exampleEvents.filter (fun e => t ≤ e.timestamp)

/-- Start state of the time-cursor example: cursor 0, limit 2, nothing
saved yet. -/
def exampleState : DuoV1LogsIterator.State :=
  { min_time := 0, limit := 2, saved := [] }

/-- An offset-cursor source for the termination example: the first call
(by mintime) yields one item and offset 5; the call at offset 5 yields an
empty page with no next_offset. -/
def exampleSourceV2 : DuoV2LogsIterator.Request → DuoV2LogsIterator.Response
  | DuoV2LogsIterator.Request.byMinTime _ _ _ _ =>
    { items := [⟨100, "a"⟩], next_offset := some 5 }
  | DuoV2LogsIterator.Request.byOffset _ _ _ _ =>
    { items := [], next_offset := none }

/-- Start state of the offset-cursor examples: no offset known yet. -/
def exampleStateV2 : DuoV2LogsIterator.State :=
  { min_time := some 0, next_offset := none, limit := 2, saved := [] }

/-- An offset-cursor source whose tokens go backwards: first page yields
offset 5, the page at offset 5 yields offset 3.  Every returned record has
timestamp ≥ 0, so the timestamp precondition of the monotonicity claim is
met, yet the saved offsets decrease. -/
def decreasingOffsetsSource : DuoV2LogsIterator.Request → DuoV2LogsIterator.Response
  | DuoV2LogsIterator.Request.byMinTime _ _ _ _ =>
    { items := [⟨100, "a"⟩], next_offset := some 5 }
  | DuoV2LogsIterator.Request.byOffset o _ _ _ =>
    if o = 5 then { items := [⟨101, "b"⟩], next_offset := some 3 }
    else { items := [], next_offset := none }

/-- Projection of a list of checkpoint-save invocations to the values of
one field (0 for an invocation without the field). -/
def savedField (field : String) (saved : List Kwargs) : List Nat :=
  saved.map (fun kw => (getField kw field).getD 0)

/-- The three blobs of the boundary test
`test_azure_blob_get_most_recent_blob`, with `current_date` taken as epoch
second 1000000: modified at current_date, +5 minutes, +7 minutes. -/
def exampleBlobs : List AzureBlobConnector.BlobDescriptor :=
  [⟨"b1", 1000000⟩, ⟨"b2", 1000300⟩, ⟨"b3", 1000420⟩]

/-- The record `R` of the line-splitting example. -/
def exampleRecord : List Char :=
  ['l', 'o', 'g']

/-! ## Helper lemmas -/

namespace DuoV1LogsIterator

theorem insertByTimestamp_perm (e : DuoEvent) (l : List DuoEvent) :
    List.Perm (insertByTimestamp e l) (e :: l) := by
  induction l with
  | nil => simp [insertByTimestamp]
  | cons x xs ih =>
    simp only [insertByTimestamp]
    by_cases h : x.timestamp < e.timestamp
    · simp only [if_pos h]
      exact (List.Perm.cons x ih).trans (List.Perm.swap e x xs)
    · simp only [if_neg h]
      exact List.Perm.refl _

theorem sortByTimestamp_perm (l : List DuoEvent) :
    List.Perm (sortByTimestamp l) l := by
  induction l with
  | nil => simp [sortByTimestamp]
  | cons x xs ih =>
    simp only [sortByTimestamp]
    exact (insertByTimestamp_perm x (sortByTimestamp xs)).trans (List.Perm.cons x ih)

theorem insertByTimestamp_pairwise {e : DuoEvent} {l : List DuoEvent}
    (h : l.Pairwise (fun a b => a.timestamp ≤ b.timestamp)) :
    (insertByTimestamp e l).Pairwise (fun a b => a.timestamp ≤ b.timestamp) := by
  induction l with
  | nil => simp [insertByTimestamp]
  | cons x xs ih =>
    rcases List.pairwise_cons.mp h with ⟨hx, hxs⟩
    simp only [insertByTimestamp]
    by_cases hlt : x.timestamp < e.timestamp
    · simp only [if_pos hlt]
      refine List.pairwise_cons.mpr ⟨?_, ih hxs⟩
      intro b hb
      have hb' : b ∈ e :: xs := ((insertByTimestamp_perm e xs).mem_iff).mp hb
      rcases List.mem_cons.mp hb' with rfl | hbxs
      · exact Nat.le_of_lt hlt
      · exact hx b hbxs
    · simp only [if_neg hlt]
      refine List.pairwise_cons.mpr ⟨?_, h⟩
      intro b hb
      rcases List.mem_cons.mp hb with rfl | hbxs
      · exact Nat.le_of_not_lt hlt
      · exact Nat.le_trans (Nat.le_of_not_lt hlt) (hx b hbxs)

theorem sortByTimestamp_pairwise (l : List DuoEvent) :
    (sortByTimestamp l).Pairwise (fun a b => a.timestamp ≤ b.timestamp) := by
  induction l with
  | nil => simp [sortByTimestamp]
  | cons x xs ih =>
    simp only [sortByTimestamp]
    exact insertByTimestamp_pairwise ih

end DuoV1LogsIterator

theorem mem_of_getLast?_eq {α : Type} {l : List α} {a : α}
    (h : l.getLast? = some a) : a ∈ l := by
  rcases List.mem_getLast?_eq_getLast h with ⟨hne, rfl⟩
  exact List.getLast_mem hne

/-! ## Claim theorems -/

/-- C1: one fetch step of the time-cursor iterator returns the page of
records of the source call at the current cursor, sorted ascending by
their timestamp field and truncated to the first `limit` records; when
that page is non-empty the cursor becomes (timestamp of its last record)
+ 1 and the checkpoint-save callback is invoked with exactly that cursor
within the step; a zero-record fetch raises StopIteration leaving cursor
and checkpoint unchanged, and StopIteration arises only from a zero-record
fetch; on events with timestamps [100,101,105] and limit 2 the first step
returns [100,101] setting the cursor to 102, the next returns [105], and a
third step exhausts. -/
theorem C1_time_cursor_step (func : Nat → List DuoEvent) (s : DuoV1LogsIterator.State)
    (hlim : 0 < s.limit) :
    (∀ page s', DuoV1LogsIterator.next func s = (some page, s') →
      page = (DuoV1LogsIterator.sortByTimestamp (func s.min_time)).take s.limit ∧
      page.Pairwise (fun a b => a.timestamp ≤ b.timestamp) ∧
      (∀ e ∈ page, e ∈ func s.min_time) ∧
      page ≠ [] ∧
      ∃ e, page.getLast? = some e ∧
        s'.min_time = e.timestamp + 1 ∧
        s'.saved = s.saved ++ [[("min_time", e.timestamp + 1)]]) ∧
    (func s.min_time = [] → DuoV1LogsIterator.next func s = (none, s)) ∧
    ((DuoV1LogsIterator.next func s).1 = none → func s.min_time = []) ∧
    DuoV1LogsIterator.next exampleSource exampleState =
      (some [⟨100, "a"⟩, ⟨101, "b"⟩],
        { min_time := 102, limit := 2, saved := [[("min_time", 102)]] }) ∧
    DuoV1LogsIterator.next exampleSource
        { min_time := 102, limit := 2, saved := [[("min_time", 102)]] } =
      (some [⟨105, "c"⟩],
        { min_time := 106, limit := 2,
          saved := [[("min_time", 102)], [("min_time", 106)]] }) ∧
    DuoV1LogsIterator.next exampleSource
        { min_time := 106, limit := 2,
          saved := [[("min_time", 102)], [("min_time", 106)]] } =
      (none, { min_time := 106, limit := 2,
               saved := [[("min_time", 102)], [("min_time", 106)]] }) := by
  refine ⟨?_, ?_, ?_, by decide, by decide, by decide⟩
  · intro page s' hstep
    simp only [DuoV1LogsIterator.next] at hstep
    rcases hlast :
        ((DuoV1LogsIterator.sortByTimestamp (func s.min_time)).take s.limit).getLast?
      with _ | e
    · rw [hlast] at hstep
      simp at hstep
    · rw [hlast] at hstep
      injection hstep with h1 h2
      injection h1 with h1
      subst h1
      subst h2
      refine ⟨rfl, ?_, ?_, ?_, e, hlast, rfl, rfl⟩
      · exact List.Pairwise.sublist (List.take_sublist _ _)
          (DuoV1LogsIterator.sortByTimestamp_pairwise _)
      · intro x hx
        exact (DuoV1LogsIterator.sortByTimestamp_perm (func s.min_time)).mem_iff.mp
          ((List.take_sublist _ _).subset hx)
      · intro hnil
        rw [hnil] at hlast
        simp at hlast
  · intro hempty
    simp [DuoV1LogsIterator.next, hempty, DuoV1LogsIterator.sortByTimestamp]
  · intro hnone
    simp only [DuoV1LogsIterator.next] at hnone
    rcases hlast :
        ((DuoV1LogsIterator.sortByTimestamp (func s.min_time)).take s.limit).getLast?
      with _ | e
    · have htake := List.getLast?_eq_none_iff.mp hlast
      have hsort : DuoV1LogsIterator.sortByTimestamp (func s.min_time) = [] := by
        rcases List.take_eq_nil_iff.mp htake with h0 | h0
        · omega
        · exact h0
      have hp := DuoV1LogsIterator.sortByTimestamp_perm (func s.min_time)
      rw [hsort] at hp
      exact hp.symm.eq_nil
    · rw [hlast] at hnone
      simp at hnone

/-- C1 witness: the theorem applied at the example source and start state,
with the positive-limit hypothesis discharged by evaluation. -/
theorem C1_time_cursor_step_witness :
    0 < exampleState.limit ∧
    DuoV1LogsIterator.next exampleSource exampleState =
      (some [⟨100, "a"⟩, ⟨101, "b"⟩],
        { min_time := 102, limit := 2, saved := [[("min_time", 102)]] }) :=
  ⟨by decide, (C1_time_cursor_step exampleSource exampleState (by decide)).2.2.2.1⟩

/-- C2: one fetch step of the offset-cursor iterator calls the source at
the known next_offset cursor (api_version 2, the configured limit as a
string, sort "ts:asc") when one is known, and at min_time = the cursor
otherwise; a truthy next_offset in the response metadata becomes the new
cursor and is passed to the checkpoint-save callback; an absent one leaves
the state untouched; StopIteration is raised exactly when the returned
items page is empty, regardless of an offset being present in this or a
previous response — witnessed by a step that terminates from a state
holding a valid offset of a previous page. -/
theorem C2_offset_cursor_step (func : DuoV2LogsIterator.Request → DuoV2LogsIterator.Response)
    (s : DuoV2LogsIterator.State) :
    (truthy s.next_offset = true →
      DuoV2LogsIterator.request s =
        DuoV2LogsIterator.Request.byOffset (s.next_offset.getD 0) 2 (toString s.limit)
          "ts:asc") ∧
    (truthy s.next_offset = false →
      DuoV2LogsIterator.request s =
        DuoV2LogsIterator.Request.byMinTime s.min_time 2 (toString s.limit) "ts:asc") ∧
    ((DuoV2LogsIterator.next func s).1 = none ↔ (func (DuoV2LogsIterator.request s)).items = []) ∧
    (truthy (func (DuoV2LogsIterator.request s)).next_offset = true →
      (DuoV2LogsIterator.next func s).2.next_offset =
        (func (DuoV2LogsIterator.request s)).next_offset ∧
      (DuoV2LogsIterator.next func s).2.saved =
        s.saved ++
          [[("next_offset", (func (DuoV2LogsIterator.request s)).next_offset.getD 0)]]) ∧
    (truthy (func (DuoV2LogsIterator.request s)).next_offset = false →
      (DuoV2LogsIterator.next func s).2 = s) ∧
    (∀ page s', DuoV2LogsIterator.next func s = (some page, s') →
      page = (func (DuoV2LogsIterator.request s)).items) ∧
    DuoV2LogsIterator.next exampleSourceV2 exampleStateV2 =
      (some [⟨100, "a"⟩],
        { min_time := some 0, next_offset := some 5, limit := 2,
          saved := [[("next_offset", 5)]] }) ∧
    DuoV2LogsIterator.next exampleSourceV2
        { min_time := some 0, next_offset := some 5, limit := 2,
          saved := [[("next_offset", 5)]] } =
      (none,
        { min_time := some 0, next_offset := some 5, limit := 2,
          saved := [[("next_offset", 5)]] }) := by
  refine ⟨?_, ?_, ?_, ?_, ?_, ?_, by decide, by decide⟩
  · intro h
    simp [DuoV2LogsIterator.request, h]
  · intro h
    simp [DuoV2LogsIterator.request, h]
  · by_cases hi : (func (DuoV2LogsIterator.request s)).items.length = 0
    · simp [DuoV2LogsIterator.next, hi, List.length_eq_zero.mp hi]
    · constructor
      · intro hnone
        by_cases ht : truthy (func (DuoV2LogsIterator.request s)).next_offset <;>
          simp [DuoV2LogsIterator.next, hi, ht] at hnone
      · intro hitems
        rw [hitems] at hi
        simp at hi
  · intro ht
    by_cases hi : (func (DuoV2LogsIterator.request s)).items.length = 0 <;>
      simp [DuoV2LogsIterator.next, hi, ht]
  · intro ht
    by_cases hi : (func (DuoV2LogsIterator.request s)).items.length = 0 <;>
      simp [DuoV2LogsIterator.next, hi, ht]
  · intro page s' hstep
    by_cases ht : truthy (func (DuoV2LogsIterator.request s)).next_offset <;>
      by_cases hi : (func (DuoV2LogsIterator.request s)).items.length = 0 <;>
        simp [DuoV2LogsIterator.next, hi, ht] at hstep <;>
          exact hstep.1.symm

/-- C3 counterexample: with no checkpoint present the Duo worker does not
start one hour in the past: load_checkpoint returns the default (whose
min_time field reads as None) and DuoV1LogsIterator.__init__ maps the
falsy value to 0, so the first source call uses mintime 0 — while now − 1
hour at now = 10000 epoch seconds is 6400 ≠ 0. -/
theorem C3_counterexample :
    DuoV1LogsIterator.initMinTime
        (getField (DuoLogsConsumer.load_checkpoint [] "administration") "min_time") = 0 ∧
    AzureBlobConnector.last_event_date none 10000 = 6400 ∧
    (0 : Nat) ≠ 6400 := by decide

/-- C3 amended: with no checkpoint present the blob scanner's effective
lower bound is now − 1 hour, but the Duo worker's first time-cursor fetch
starts at min_time = 0 (the epoch): the loaded default checkpoint has no
min_time field and the iterator maps the falsy value to 0. -/
theorem C3_default_start :
    (∀ now : Nat, AzureBlobConnector.last_event_date none now = now - 3600) ∧
    (∀ key : String, DuoLogsConsumer.load_checkpoint [] key = [] ∧
      getField (DuoLogsConsumer.load_checkpoint [] key) "min_time" = none) ∧
    DuoV1LogsIterator.initMinTime none = 0 :=
  ⟨fun _ => rfl, fun _ => ⟨rfl, rfl⟩, rfl⟩

/-- C4 counterexample: a persisted watermark older than one hour ago is
not used as-is: at now = 10000 epoch seconds with stored value 5200 (one
hour ago being 6400), the effective watermark is 6400, not 5200. -/
theorem C4_counterexample :
    AzureBlobConnector.last_event_date (some 5200) 10000 = 6400 ∧
    (6400 : Nat) ≠ 5200 := by decide

/-- C4 amended: the effective watermark is the persisted checkpoint value
clamped from below at now − 1 hour: a stored value within the last hour is
used as-is, an older one is fast-forwarded to now − 1 hour — the behavior
asserted by test_azure_blob_connector_last_event_date, whose three
assertions are reproduced here with current_date = epoch second 7200000. -/
theorem C4_watermark_clamp (t now : Nat) :
    AzureBlobConnector.last_event_date (some t) now = max t (now - 3600) ∧
    (now - 3600 ≤ t → AzureBlobConnector.last_event_date (some t) now = t) ∧
    AzureBlobConnector.last_event_date none 7200000 = 7200000 - 3600 ∧
    AzureBlobConnector.last_event_date (some 7200000) 7200000 = 7200000 ∧
    AzureBlobConnector.last_event_date (some (7200000 - 3600 - 1200)) 7200000 =
      7200000 - 3600 := by
  refine ⟨?_, ?_, by decide, by decide, by decide⟩
  · simp only [AzureBlobConnector.last_event_date]
    rcases Nat.lt_or_ge t (now - 3600) with h | h
    · rw [if_pos h, Nat.max_eq_right (Nat.le_of_lt h)]
    · rw [if_neg (Nat.not_lt.mpr h), Nat.max_eq_left h]
  · intro h
    simp only [AzureBlobConnector.last_event_date]
    rw [if_neg (Nat.not_lt.mpr h)]

/-- C4 witness: the amended theorem applied at stored value = now =
epoch 7200000, the in-window case. -/
theorem C4_watermark_clamp_witness :
    AzureBlobConnector.last_event_date (some 7200000) 7200000 = 7200000 :=
  (C4_watermark_clamp 7200000 7200000).2.1 (by decide)

theorem DuoV1LogsIterator.next_none_eq {func : Nat → List DuoEvent}
    {s t : DuoV1LogsIterator.State}
    (h : DuoV1LogsIterator.next func s = (none, t)) : t = s := by
  simp only [DuoV1LogsIterator.next] at h
  rcases hlast :
      ((DuoV1LogsIterator.sortByTimestamp (func s.min_time)).take s.limit).getLast?
    with _ | e
  · rw [hlast] at h
    injection h with _ h2
    exact h2.symm
  · rw [hlast] at h
    simp at h

theorem DuoV1LogsIterator.next_step_increases {func : Nat → List DuoEvent}
    {s : DuoV1LogsIterator.State}
    (hfunc : ∀ e ∈ func s.min_time, s.min_time ≤ e.timestamp)
    {page : List DuoEvent} {s' : DuoV1LogsIterator.State}
    (h : DuoV1LogsIterator.next func s = (some page, s')) :
    s.min_time < s'.min_time ∧
    s'.saved = s.saved ++ [[("min_time", s'.min_time)]] ∧ s'.limit = s.limit := by
  simp only [DuoV1LogsIterator.next] at h
  rcases hlast :
      ((DuoV1LogsIterator.sortByTimestamp (func s.min_time)).take s.limit).getLast?
    with _ | e
  · rw [hlast] at h
    simp at h
  · rw [hlast] at h
    injection h with _ h2
    subst h2
    have he : e ∈ func s.min_time :=
      (DuoV1LogsIterator.sortByTimestamp_perm (func s.min_time)).mem_iff.mp
        ((List.take_sublist _ _).subset (mem_of_getLast?_eq hlast))
    exact ⟨Nat.lt_succ_of_le (hfunc e he), rfl, rfl⟩

theorem DuoV1LogsIterator.run_saved_chain {func : Nat → List DuoEvent}
    (hfunc : ∀ t, ∀ e ∈ func t, t ≤ e.timestamp) :
    ∀ (n : Nat) (s : DuoV1LogsIterator.State),
      ∃ tail, (DuoV1LogsIterator.run func n s).saved = s.saved ++ tail ∧
        List.Chain' (· < ·) (s.min_time :: savedField "min_time" tail) := by
  intro n
  induction n with
  | zero =>
    intro s
    exact ⟨[], by simp [DuoV1LogsIterator.run], by simp [savedField]⟩
  | succ n ih =>
    intro s
    rcases hstep : DuoV1LogsIterator.next func s with ⟨page?, s1⟩
    rcases page? with _ | page
    · have hs1 : s1 = s := DuoV1LogsIterator.next_none_eq hstep
      refine ⟨[], ?_, by simp [savedField]⟩
      simp [DuoV1LogsIterator.run, hstep, hs1]
    · have hinc := DuoV1LogsIterator.next_step_increases (hfunc s.min_time) hstep
      rcases ih s1 with ⟨tail1, htail1, hchain1⟩
      refine ⟨[("min_time", s1.min_time)] :: tail1, ?_, ?_⟩
      · have hrun : DuoV1LogsIterator.run func (n + 1) s = DuoV1LogsIterator.run func n s1 := by
          simp [DuoV1LogsIterator.run, hstep]
        rw [hrun, htail1, hinc.2.1]
        simp
      · have : savedField "min_time" ([("min_time", s1.min_time)] :: tail1) =
            s1.min_time :: savedField "min_time" tail1 := by
          simp [savedField, getField]
        rw [this]
        exact List.chain'_cons.mpr ⟨hinc.1, hchain1⟩

/-- C5 counterexample: a source meeting the timestamp precondition (every
record it returns has timestamp ≥ any requested min_time) but whose
next_offset tokens decrease makes the offset-cursor iterator persist 5 and
then 3: the second value passed to the checkpoint-save callback is smaller
than the previously persisted one, rolling the checkpoint backward. -/
theorem C5_counterexample :
    savedField "next_offset"
        (DuoV2LogsIterator.run decreasingOffsetsSource 3 exampleStateV2).saved = [5, 3] ∧
    ¬ (5 : Nat) < 3 := by decide

/-- C5 amended: for the time-cursor iterator, under the precondition that
the source only returns records with timestamps at least the requested
min_time, the sequence of persisted min_time values is strictly increasing
and each exceeds the starting cursor; the offset-cursor iterator instead
persists exactly the next_offset token of each response, unchecked, so its
checkpoint moves forward only when the source's tokens do. -/
theorem C5_checkpoint_monotonicity (func : Nat → List DuoEvent)
    (hfunc : ∀ t, ∀ e ∈ func t, t ≤ e.timestamp) (n m0 lim : Nat) :
    List.Chain' (· < ·)
      (m0 :: savedField "min_time"
        (DuoV1LogsIterator.run func n
          { min_time := m0, limit := lim, saved := [] }).saved) ∧
    (∀ (funcV2 : DuoV2LogsIterator.Request → DuoV2LogsIterator.Response)
        (s : DuoV2LogsIterator.State),
      (DuoV2LogsIterator.next funcV2 s).2.saved = s.saved ∨
      (DuoV2LogsIterator.next funcV2 s).2.saved =
        s.saved ++
          [[("next_offset",
              (funcV2 (DuoV2LogsIterator.request s)).next_offset.getD 0)]]) := by
  constructor
  · rcases DuoV1LogsIterator.run_saved_chain hfunc n
        { min_time := m0, limit := lim, saved := [] } with ⟨tail, htail, hchain⟩
    rw [htail]
    simpa using hchain
  · intro funcV2 s
    by_cases ht : truthy (funcV2 (DuoV2LogsIterator.request s)).next_offset <;>
      by_cases hi : (funcV2 (DuoV2LogsIterator.request s)).items.length = 0 <;>
        simp [DuoV2LogsIterator.next, ht, hi]

/-- C5 witness: the amended theorem applied to the example time-cursor
source, which returns only records with timestamp ≥ the requested
min_time. -/
theorem C5_checkpoint_monotonicity_witness :
    List.Chain' (· < ·)
      (0 :: savedField "min_time"
        (DuoV1LogsIterator.run exampleSource 3
          { min_time := 0, limit := 2, saved := [] }).saved) :=
  (C5_checkpoint_monotonicity exampleSource
    (fun t e he => by simpa using (List.mem_filter.mp he).2) 3 0 2).1

theorem AzureBlobConnector.splitLines_no_newline {l : List Char} (h : '\n' ∉ l) :
    AzureBlobConnector.splitLines l = [l] := by
  induction l with
  | nil => simp [AzureBlobConnector.splitLines]
  | cons c cs ih =>
    have hc : ¬ c = '\n' := fun hc => h (by simp [hc])
    have hcs : '\n' ∉ cs := fun hmem => h (by simp [hmem])
    simp only [AzureBlobConnector.splitLines, if_neg hc, ih hcs]

theorem AzureBlobConnector.splitLines_append {l : List Char} (h : '\n' ∉ l)
    (rest : List Char) :
    AzureBlobConnector.splitLines (l ++ '\n' :: rest) =
      l :: AzureBlobConnector.splitLines rest := by
  induction l with
  | nil =>
    simp [AzureBlobConnector.splitLines]
  | cons c cs ih =>
    have hc : ¬ c = '\n' := fun hc => h (by simp [hc])
    have hcs : '\n' ∉ cs := fun hmem => h (by simp [hmem])
    simp only [List.cons_append, AzureBlobConnector.splitLines, if_neg hc,
      List.append_eq, ih hcs]

theorem AzureBlobConnector.splitLines_joinLines :
    ∀ (lines : List (List Char)), (∀ l ∈ lines, '\n' ∉ l) → lines ≠ [] →
      AzureBlobConnector.splitLines (AzureBlobConnector.joinLines lines) = lines := by
  intro lines
  induction lines with
  | nil => intro _ h; exact absurd rfl h
  | cons l ls ih =>
    intro hno _
    cases ls with
    | nil =>
      simp only [AzureBlobConnector.joinLines]
      exact AzureBlobConnector.splitLines_no_newline (hno l (by simp))
    | cons l' ls' =>
      simp only [AzureBlobConnector.joinLines]
      rw [AzureBlobConnector.splitLines_append (hno l (by simp))]
      rw [ih (fun x hx => hno x (by simp [hx])) (by simp)]

/-- C6: blob contents are read through transparent gzip decompression,
split on line boundaries, blank lines dropped, and the non-empty lines
emitted verbatim, in order, duplicates preserved: a gzip-compressed blob
and a plain blob with identical logical content yield identical records,
the records of content built from given newline-free lines are exactly
those lines with the empty ones filtered out, and the test_4 content —
three copies of record R interleaved with blank lines — yields exactly
[R, R, R]. -/
theorem C6_blob_records (lines : List (List Char))
    (hlines : ∀ l ∈ lines, '\n' ∉ l) :
    AzureBlobConnector.blobRecords
        (AzureBlobConnector.BlobContent.gzipped (AzureBlobConnector.joinLines lines)) =
      AzureBlobConnector.blobRecords
        (AzureBlobConnector.BlobContent.plain (AzureBlobConnector.joinLines lines)) ∧
    AzureBlobConnector.blobRecords
        (AzureBlobConnector.BlobContent.plain (AzureBlobConnector.joinLines lines)) =
      lines.filter (fun l => l ≠ []) ∧
    AzureBlobConnector.blobRecords
        (AzureBlobConnector.BlobContent.gzipped (AzureBlobConnector.joinLines
          [exampleRecord, [], [], [], [], exampleRecord, exampleRecord, []])) =
      [exampleRecord, exampleRecord, exampleRecord] := by
  refine ⟨rfl, ?_, by decide⟩
  rcases hl : lines with _ | ⟨l, ls⟩
  · simp [AzureBlobConnector.blobRecords, AzureBlobConnector.readContent,
      AzureBlobConnector.joinLines, AzureBlobConnector.splitLines]
  · rw [← hl]
    simp only [AzureBlobConnector.blobRecords, AzureBlobConnector.readContent]
    rw [AzureBlobConnector.splitLines_joinLines lines hlines (by simp [hl])]

/-- C6 witness: the theorem applied at the test_4 content lines, the
newline-freeness hypothesis discharged by evaluation. -/
theorem C6_blob_records_witness :
    AzureBlobConnector.blobRecords
        (AzureBlobConnector.BlobContent.plain (AzureBlobConnector.joinLines
          [exampleRecord, [], [], [], [], exampleRecord, exampleRecord, []])) =
      [exampleRecord, [], [], [], [], exampleRecord, exampleRecord, []].filter
        (fun l => l ≠ []) :=
  (C6_blob_records [exampleRecord, [], [], [], [], exampleRecord, exampleRecord, []]
    (by decide)).2.1

/-- C7: get_most_recent_blobs keeps exactly the blobs with last_modified
strictly greater than the lower bound, preserving the source's enumeration
order (the result is a sublist of the listing); a blob modified exactly at
the bound is excluded and one modified one second later is included; on
the three-blob test scenario with bound current_date + 2 minutes the
second and third blobs survive, in order. -/
theorem C7_most_recent_blobs (T : Nat) (blobs : List AzureBlobConnector.BlobDescriptor) :
    (∀ b, b ∈ AzureBlobConnector.get_most_recent_blobs T blobs ↔
      (b ∈ blobs ∧ T < b.last_modified)) ∧
    List.Sublist (AzureBlobConnector.get_most_recent_blobs T blobs) blobs ∧
    (∀ b : AzureBlobConnector.BlobDescriptor, b.last_modified = T →
      b ∉ AzureBlobConnector.get_most_recent_blobs T [b]) ∧
    (∀ b : AzureBlobConnector.BlobDescriptor, b.last_modified = T + 1 →
      b ∈ AzureBlobConnector.get_most_recent_blobs T [b]) ∧
    AzureBlobConnector.get_most_recent_blobs 1000120 exampleBlobs =
      [⟨"b2", 1000300⟩, ⟨"b3", 1000420⟩] := by
  refine ⟨?_, ?_, ?_, ?_, by decide⟩
  · intro b
    simp [AzureBlobConnector.get_most_recent_blobs, List.mem_filter, and_comm]
  · exact List.filter_sublist _
  · intro b hb
    simp [AzureBlobConnector.get_most_recent_blobs, hb]
  · intro b hb
    simp [AzureBlobConnector.get_most_recent_blobs, hb]

/-- C7 witness: the theorem applied at the test scenario's bound and
blobs, projecting the boundary-exclusion conjunct at the first blob. -/
theorem C7_most_recent_blobs_witness :
    (⟨"b1", 1000000⟩ : AzureBlobConnector.BlobDescriptor) ∉
      AzureBlobConnector.get_most_recent_blobs 1000000
        [⟨"b1", 1000000⟩] :=
  (C7_most_recent_blobs 1000000 exampleBlobs).2.2.1 ⟨"b1", 1000000⟩ rfl

/-- C2 witness: the theorem applied at the example offset source and
start state, projecting the first concrete step. -/
theorem C2_offset_cursor_step_witness :
    DuoV2LogsIterator.next exampleSourceV2 exampleStateV2 =
      (some [⟨100, "a"⟩],
        { min_time := some 0, next_offset := some 5, limit := 2,
          saved := [[("next_offset", 5)]] }) :=
  (C2_offset_cursor_step exampleSourceV2 exampleStateV2).2.2.2.2.2.2.1

/-- C3 witness: the amended theorem's blob-scanner conjunct applied at
now = 10000 epoch seconds. -/
theorem C3_default_start_witness :
    AzureBlobConnector.last_event_date none 10000 = 10000 - 3600 :=
  C3_default_start.1 10000

/-- C8: after a page, the worker sleeps exactly frequency − elapsed
seconds when that is positive and not at all otherwise: a sleep action
appears in the page's trace exactly for the positive remainder, a page
cycle of 2 seconds under frequency 5 is followed by a sleep of 3 seconds,
and one of 6 seconds by no sleep. -/
theorem C8_pacing (frequency batch_duration : Int) (page : List DuoEvent) :
    (∀ s : Int, DuoLogsConsumer.WorkerAction.sleep s ∈
        DuoLogsConsumer.pageActions frequency page batch_duration ↔
      (s = frequency - batch_duration ∧ 0 < frequency - batch_duration)) ∧
    (0 < frequency - batch_duration →
      DuoLogsConsumer.pageActions frequency page batch_duration =
        (if 0 < page.length then [DuoLogsConsumer.WorkerAction.forward page.length]
         else []) ++
          [DuoLogsConsumer.WorkerAction.sleep (frequency - batch_duration)]) ∧
    (frequency - batch_duration ≤ 0 →
      DuoLogsConsumer.pageActions frequency page batch_duration =
        (if 0 < page.length then [DuoLogsConsumer.WorkerAction.forward page.length]
         else [])) ∧
    DuoLogsConsumer.fetch_batches 5 [([⟨1, "x"⟩], 2)] =
      [DuoLogsConsumer.WorkerAction.forward 1, DuoLogsConsumer.WorkerAction.sleep 3] ∧
    DuoLogsConsumer.fetch_batches 5 [([⟨1, "x"⟩], 6)] =
      [DuoLogsConsumer.WorkerAction.forward 1] := by
  refine ⟨?_, ?_, ?_, by decide, by decide⟩
  · intro s
    by_cases hs : 0 < frequency - batch_duration <;>
      by_cases hp : 0 < page.length <;>
        simp [DuoLogsConsumer.pageActions, hs, hp]
  · intro hs
    by_cases hp : 0 < page.length <;>
      simp [DuoLogsConsumer.pageActions, hs, hp]
  · intro hs
    by_cases hp : 0 < page.length <;>
      simp [DuoLogsConsumer.pageActions, Int.not_lt.mpr hs, hp]

/-- C8 witness: the theorem applied at frequency 5, duration 2 and a
one-event page, projecting the positive-remainder characterization. -/
theorem C8_pacing_witness :
    DuoLogsConsumer.pageActions 5 [⟨1, "x"⟩] 2 =
      (if 0 < ([⟨1, "x"⟩] : List DuoEvent).length
       then [DuoLogsConsumer.WorkerAction.forward ([⟨1, "x"⟩] : List DuoEvent).length]
       else []) ++ [DuoLogsConsumer.WorkerAction.sleep (5 - 2)] :=
  (C8_pacing 5 2 [⟨1, "x"⟩]).2.1 (by decide)

/-- C9: any unhandled error from a fetch_batches pass terminates the
worker: the outer loop's exception boundary emits exactly one
log_exception carrying the log-type label and the trace — the thread —
ends there, with no retry; with the stop flag clear a pass runs as one
atomic unit before the next top-of-loop check, and a set stop flag ends
the loop before any further pass starts. -/
theorem C9_run_failure (label : String) (running : Nat → Bool)
    (cycle : Nat → Except String (List DuoLogsConsumer.WorkerAction)) (fuel k : Nat) :
    (∀ e, running k = true → cycle k = Except.error e →
      DuoLogsConsumer.runTrace label running cycle (fuel + 1) k =
        [DuoLogsConsumer.RunAction.logException
          ("Failed to forward " ++ label ++ " events")]) ∧
    (running k = false → DuoLogsConsumer.runTrace label running cycle (fuel + 1) k = []) ∧
    (∀ acts, running k = true → cycle k = Except.ok acts →
      DuoLogsConsumer.runTrace label running cycle (fuel + 1) k =
        DuoLogsConsumer.RunAction.pass acts ::
          DuoLogsConsumer.runTrace label running cycle fuel (k + 1)) := by
  refine ⟨?_, ?_, ?_⟩
  · intro e hrun hcyc
    simp [DuoLogsConsumer.runTrace, hrun, hcyc]
  · intro hrun
    simp [DuoLogsConsumer.runTrace, hrun]
  · intro acts hrun hcyc
    simp [DuoLogsConsumer.runTrace, hrun, hcyc]

/-- C9 witness: a worker whose second pass raises: the trace is the first
completed pass followed by the single exception log, and nothing after. -/
theorem C9_run_failure_witness :
    DuoLogsConsumer.runTrace "ADMINISTRATION" (fun _ => true)
        (fun i => if i = 0 then Except.ok [DuoLogsConsumer.WorkerAction.forward 1]
                  else Except.error "connection reset") 4 1 =
      [DuoLogsConsumer.RunAction.logException
        ("Failed to forward " ++ "ADMINISTRATION" ++ " events")] :=
  (C9_run_failure "ADMINISTRATION" (fun _ => true)
    (fun i => if i = 0 then Except.ok [DuoLogsConsumer.WorkerAction.forward 1]
              else Except.error "connection reset") 3 1).1 "connection reset" rfl rfl

theorem DuoLogsConsumer.getKey_setKey_self (cache : DuoLogsConsumer.Cache)
    (key : String) (v : Kwargs) :
    DuoLogsConsumer.getKey (DuoLogsConsumer.setKey cache key v) key = some v := by
  induction cache with
  | nil => simp [DuoLogsConsumer.setKey, DuoLogsConsumer.getKey]
  | cons kv rest ih =>
    rcases kv with ⟨k, v'⟩
    by_cases h : k = key
    · subst h
      simp [DuoLogsConsumer.setKey, DuoLogsConsumer.getKey]
    · simp only [DuoLogsConsumer.setKey, if_neg h]
      simpa [DuoLogsConsumer.getKey, List.find?_cons, h] using ih

theorem DuoLogsConsumer.getKey_setKey_other (cache : DuoLogsConsumer.Cache)
    (key k' : String) (v : Kwargs) (h : k' ≠ key) :
    DuoLogsConsumer.getKey (DuoLogsConsumer.setKey cache key v) k' =
      DuoLogsConsumer.getKey cache k' := by
  induction cache with
  | nil => simp [DuoLogsConsumer.setKey, DuoLogsConsumer.getKey, Ne.symm h]
  | cons kv rest ih =>
    rcases kv with ⟨k, v'⟩
    by_cases hk : k = key
    · subst hk
      simp [DuoLogsConsumer.setKey, DuoLogsConsumer.getKey, List.find?_cons, Ne.symm h]
    · simp only [DuoLogsConsumer.setKey, if_neg hk]
      by_cases hk' : k = k'
      · subst hk'
        simp [DuoLogsConsumer.getKey, List.find?_cons]
      · simpa [DuoLogsConsumer.getKey, List.find?_cons, hk'] using ih

/-- C10: save_checkpoint replaces the whole checkpoint dict stored under
the log-type key with exactly the keyword arguments it receives — fields
it was not given are gone — while other keys are untouched; in particular,
after the offset-cursor iterator's first callback invocation (whose
kwargs hold only next_offset), the persisted checkpoint for the key no
longer has a min_time field: starting from a cache persisting
min_time 1700000000 for "authentication", one step of the example offset
source leaves the key bound to next_offset 5 alone. -/
theorem C10_save_checkpoint_replaces (cache : DuoLogsConsumer.Cache)
    (key : String) (kw : Kwargs) :
    DuoLogsConsumer.getKey (DuoLogsConsumer.save_checkpoint cache key kw) key =
      some kw ∧
    (∀ k', k' ≠ key →
      DuoLogsConsumer.getKey (DuoLogsConsumer.save_checkpoint cache key kw) k' =
        DuoLogsConsumer.getKey cache k') ∧
    (∀ o : Nat, getField [("next_offset", o)] "min_time" = none) ∧
    (DuoV2LogsIterator.next exampleSourceV2 exampleStateV2).2.saved =
      [[("next_offset", 5)]] ∧
    DuoLogsConsumer.save_checkpoint
        [("authentication", [("min_time", 1700000000)])] "authentication"
        ((DuoV2LogsIterator.next exampleSourceV2 exampleStateV2).2.saved.headD []) =
      [("authentication", [("next_offset", 5)])] ∧
    getField
        ((DuoLogsConsumer.getKey
          (DuoLogsConsumer.save_checkpoint
            [("authentication", [("min_time", 1700000000)])] "authentication"
            ((DuoV2LogsIterator.next exampleSourceV2 exampleStateV2).2.saved.headD []))
          "authentication").getD [])
        "min_time" = none := by
  refine ⟨DuoLogsConsumer.getKey_setKey_self cache key kw,
    fun k' h => DuoLogsConsumer.getKey_setKey_other cache key k' kw h,
    fun o => rfl, by decide, by decide, by decide⟩

/-- C10 witness: the theorem applied at the concrete one-key cache,
projecting the full-replacement conjunct. -/
theorem C10_save_checkpoint_replaces_witness :
    DuoLogsConsumer.getKey
        (DuoLogsConsumer.save_checkpoint
          [("authentication", [("min_time", 1700000000)])] "authentication"
          [("next_offset", 5)])
        "authentication" = some [("next_offset", 5)] :=
  (C10_save_checkpoint_replaces [("authentication", [("min_time", 1700000000)])]
    "authentication" [("next_offset", 5)]).1
